import Mathlib

/-!
Verification of `src/create-test-logo.py`.

The script is twelve lines of Python driving the PIL imaging library:

  img = Image.new('RGB', (200, 200), color='#3B82F6')
  draw = ImageDraw.Draw(img)
  draw.ellipse([50, 50, 150, 150], fill='#EAB308')
  img.save('test-logo.png')
  print("Test logo created successfully")

The imaging primitives (`Image.new`, `draw.ellipse`, `img.save`) are library
code that is not part of this repository, so they are modelled here from the
specification's description of them; the script's own control flow (strictly
linear, exceptions propagate and abort the process) is embedded directly.
-/

namespace CreateTestLogo

/-- An RGB color: three channels, one value per channel (red, green, blue). -/
structure Color where
  r : Nat
  g : Nat
  b : Nat
deriving DecidableEq, Repr

/-- Value of a single hexadecimal digit character, if it is one. -/
def hexDigitVal (c : Char) : Option Nat :=
  if '0' ≤ c ∧ c ≤ '9' then some (c.toNat - '0'.toNat)
  else if 'a' ≤ c ∧ c ≤ 'f' then some (c.toNat - 'a'.toNat + 10)
  else if 'A' ≤ c ∧ c ≤ 'F' then some (c.toNat - 'A'.toNat + 10)
  else none

/-- Modelled from the spec: decoding of a CSS-style hexadecimal color string
`#RRGGBB` into the RGB color value it corresponds to (the spec speaks of "the
color value corresponding to hexadecimal `#3B82F6`"; the decoder itself lives
in the imaging library, not under src/). -/
def parseHexColor (s : String) : Option Color :=
  match s.toList with
  | ['#', r1, r2, g1, g2, b1, b2] => do
    let rh ← hexDigitVal r1
    let rl ← hexDigitVal r2
    let gh ← hexDigitVal g1
    let gl ← hexDigitVal g2
    let bh ← hexDigitVal b1
    let bl ← hexDigitVal b2
    pure ⟨16 * rh + rl, 16 * gh + gl, 16 * bh + bl⟩
  | _ => none

/-- The background fill color `#3B82F6` of line 4 of the script. -/
def blue : Color := ⟨59, 130, 246⟩

/-- The ellipse fill color `#EAB308` of line 8 of the script. -/
def yellow : Color := ⟨234, 179, 8⟩

/-- An in-memory raster image: a width, a height and a pixel function giving
the color stored at each integer pixel coordinate. -/
structure Img where
  width : Nat
  height : Nat
  pix : Int → Int → Color

/-- Modelled from the spec: `Image.new('RGB', (w, h), color=c)` (PIL, not under
src/) returns "an initialized raster buffer with every pixel set to the fill
color". -/
def imageNew (w h : Nat) (c : Color) : Img :=
  ⟨w, h, fun _ _ => c⟩

/-- Modelled from the spec: whether the center of the pixel at integer
coordinate (x, y) falls within the ellipse inscribed in the bounding box
(x0, y0)–(x1, y1).  The inscribed ellipse has center ((x0+x1)/2, (y0+y1)/2)
and semi-axes (x1-x0)/2 and (y1-y0)/2; clearing denominators, the pixel lies
within it exactly when
  (y1-y0)² (2x-(x0+x1))² + (x1-x0)² (2y-(y0+y1))² ≤ (x1-x0)² (y1-y0)². -/
def insideEllipse (x0 y0 x1 y1 x y : Int) : Prop :=
  (y1 - y0) ^ 2 * (2 * x - (x0 + x1)) ^ 2
    + (x1 - x0) ^ 2 * (2 * y - (y0 + y1)) ^ 2
    ≤ (x1 - x0) ^ 2 * (y1 - y0) ^ 2

instance (x0 y0 x1 y1 x y : Int) : Decidable (insideEllipse x0 y0 x1 y1 x y) := by
  unfold insideEllipse
  infer_instance

/-- Modelled from the spec: `draw.ellipse([x0, y0, x1, y1], fill=c)` (PIL, not
under src/) "overwrites every pixel whose center falls within the ellipse
inscribed in that bounding box with the fill color; pixels outside the ellipse
are untouched". -/
def drawEllipse (x0 y0 x1 y1 : Int) (c : Color) (img : Img) : Img :=
  { img with
    pix := fun x y => if insideEllipse x0 y0 x1 y1 x y then c else img.pix x y }

/-- The canvas right after line 4 of the script: 200×200, uniformly blue. -/
def initialImg : Img := imageNew 200 200 blue

/-- The canvas after line 8 of the script: the yellow ellipse inscribed in
(50,50)–(150,150) drawn over the blue canvas. -/
def finalImg : Img := drawEllipse 50 50 150 150 yellow initialImg

/-- Outcome of one run of the script, as observable from outside: the lines
emitted on standard output, the process exit status, the decoded content of
`test-logo.png` if the write completed, and the surfaced diagnostic if a step
failed. -/
structure RunResult where
  stdout : List String
  exitCode : Nat
  fileWritten : Option Img
  diagnostic : Option String

/-- Modelled from the spec: one run of the script.  The script is strictly
linear: allocate the canvas, draw, save, print.  `allocErr` and `saveErr` are
the environment-determined outcomes of canvas allocation (line 4) and of the
PNG write (line 11): `some e` means that step raised error `e`.  A raised
error propagates, terminates the process with a non-zero status carrying the
diagnostic, and skips everything after the failing line; the success message
of line 12 is printed only after the save of line 11 returned.  The PNG
encode/decode round trip is the identity on pixel content, the spec's PNG
being "a lossless raster image file format". -/
def runScript (allocErr saveErr : Option String) : RunResult :=
  match allocErr with
  | some e => ⟨[], 1, none, some e⟩
  | none =>
    match saveErr with
    | some e => ⟨[], 1, none, some e⟩
    | none => ⟨["Test logo created successfully"], 0, some finalImg, none⟩

/-- Any pixel within the inscribed ellipse of box (50,50)–(150,150) has both
coordinates in [50, 150]. -/
theorem insideEllipse_mem_box {x y : Int}
    (h : insideEllipse 50 50 150 150 x y) :
    50 ≤ x ∧ x ≤ 150 ∧ 50 ≤ y ∧ y ≤ 150 := by
  unfold insideEllipse at h
  norm_num at h
  refine ⟨?_, ?_, ?_, ?_⟩ <;>
    nlinarith [sq_nonneg (2 * x - 200), sq_nonneg (2 * y - 200)]

/-- C1: the draw-ellipse step overwrites with the fill color (234, 179, 8)
exactly the pixels whose center falls within the ellipse inscribed in the
bounding box (50,50)–(150,150), and every pixel outside that ellipse keeps the
value it had before the draw. -/
theorem draw_ellipse_frame (x y : Int) :
    (insideEllipse 50 50 150 150 x y → finalImg.pix x y = yellow) ∧
    (¬ insideEllipse 50 50 150 150 x y → finalImg.pix x y = initialImg.pix x y) := by
  constructor <;> intro h <;> simp [finalImg, drawEllipse, h]

/-- Concrete instance of the frame property: the center (100,100) lies within
the ellipse and is painted yellow; the corner (0,0) lies outside and keeps its
prior value. -/
theorem draw_ellipse_frame_witness :
    finalImg.pix 100 100 = yellow ∧ finalImg.pix 0 0 = initialImg.pix 0 0 :=
  ⟨(draw_ellipse_frame 100 100).1 (by decide),
   (draw_ellipse_frame 0 0).2 (by decide)⟩

/-- C2: allocating the canvas with width 200, height 200 and fill color
`#3B82F6` (which decodes to RGB (59, 130, 246)) yields a 200×200 buffer with
every pixel initialized to (59, 130, 246). -/
theorem image_new_uniform_blue :
    parseHexColor "#3B82F6" = some blue ∧
    initialImg.width = 200 ∧ initialImg.height = 200 ∧
    ∀ x y : Int, initialImg.pix x y = blue :=
  ⟨by decide, rfl, rfl, fun _ _ => rfl⟩

/-- Concrete instance: the corner pixel of the fresh canvas is blue. -/
theorem image_new_uniform_blue_witness : initialImg.pix 0 0 = blue :=
  image_new_uniform_blue.2.2.2 0 0

/-- C3: in the final image the pixel at the exact center (100,100) has the RGB
value (234, 179, 8). -/
theorem center_pixel_yellow : finalImg.pix 100 100 = ⟨234, 179, 8⟩ := by
  decide

/-- C4: every pixel strictly outside the circle's bounding region
(50,50)–(150,150) — in particular (0,0) and (199,199) — has the RGB value
(59, 130, 246) in the final image. -/
theorem outside_box_pixels_blue (x y : Int)
    (h : x < 50 ∨ 150 < x ∨ y < 50 ∨ 150 < y) :
    finalImg.pix x y = ⟨59, 130, 246⟩ := by
  have hni : ¬ insideEllipse 50 50 150 150 x y := by
    intro hin
    rcases insideEllipse_mem_box hin with ⟨h1, h2, h3, h4⟩
    rcases h with h | h | h | h <;> omega
  simp [finalImg, drawEllipse, initialImg, imageNew, hni, blue]

/-- Concrete instances: the two corners named by the claim are blue. -/
theorem outside_box_pixels_blue_witness :
    finalImg.pix 0 0 = ⟨59, 130, 246⟩ ∧ finalImg.pix 199 199 = ⟨59, 130, 246⟩ :=
  ⟨outside_box_pixels_blue 0 0 (Or.inl (by decide)),
   outside_box_pixels_blue 199 199 (Or.inr (Or.inl (by decide)))⟩

/-- C5: the image the program persists (the content of `test-logo.png` on a
successful run) has width 200 and height 200. -/
theorem saved_image_dimensions :
    (runScript none none).fileWritten = some finalImg ∧
    finalImg.width = 200 ∧ finalImg.height = 200 :=
  ⟨rfl, rfl, rfl⟩

/-- C6: a successful run emits exactly the one line
`Test logo created successfully`, and in any run the line appears on standard
output only if the file write already succeeded (the print follows the save in
the script's linear control flow). -/
theorem success_message (a s : Option String) :
    (runScript none none).stdout = ["Test logo created successfully"] ∧
    ((runScript a s).stdout ≠ [] →
      a = none ∧ s = none ∧ (runScript a s).fileWritten = some finalImg) := by
  refine ⟨rfl, ?_⟩
  cases a <;> cases s <;> simp [runScript]

/-- Concrete instance: in the all-successful run the message is printed and
the file was written beforehand. -/
theorem success_message_witness :
    (runScript none none).fileWritten = some finalImg :=
  ((success_message none none).2 (by simp [runScript])).2.2

/-- C7: if the file write fails the run exits non-zero, surfaces the
underlying error as its diagnostic and prints no success message; the exit
status is zero exactly when allocation and the write both succeed. -/
theorem failure_exit_status (a s : Option String) :
    ((runScript a s).exitCode = 0 ↔ a = none ∧ s = none) ∧
    (a = none → s ≠ none →
      (runScript a s).exitCode ≠ 0 ∧ (runScript a s).diagnostic = s ∧
      (runScript a s).stdout = []) := by
  cases a <;> cases s <;> simp [runScript]

/-- Concrete instance: a run whose save raises "permission denied" exits
non-zero, surfaces that diagnostic and prints nothing. -/
theorem failure_exit_status_witness :
    (runScript none (some "permission denied")).exitCode ≠ 0 ∧
    (runScript none (some "permission denied")).diagnostic =
      some "permission denied" ∧
    (runScript none (some "permission denied")).stdout = [] :=
  (failure_exit_status none (some "permission denied")).2 rfl (by simp)

/-- C8: the program is deterministic: any two successful runs write the same
file — same `some` content, hence identical dimensions and identical center
and corner pixel colors. -/
theorem deterministic_runs (a1 s1 a2 s2 : Option String)
    (h1 : (runScript a1 s1).exitCode = 0) (h2 : (runScript a2 s2).exitCode = 0) :
    (runScript a1 s1).fileWritten = (runScript a2 s2).fileWritten ∧
    ∃ f, (runScript a1 s1).fileWritten = some f ∧
      f.width = 200 ∧ f.height = 200 ∧
      f.pix 100 100 = yellow ∧ f.pix 0 0 = blue ∧ f.pix 199 199 = blue := by
  cases a1 <;> cases s1 <;> simp [runScript] at h1
  cases a2 <;> cases s2 <;> simp [runScript] at h2
  exact ⟨rfl, finalImg, rfl, rfl, rfl, by decide, by decide, by decide⟩

/-- Concrete instance: two all-successful runs agree, and the shared file has
the contractual dimensions and pixel colors. -/
theorem deterministic_runs_witness :
    (runScript none none).fileWritten = (runScript none none).fileWritten ∧
    ∃ f, (runScript none none).fileWritten = some f ∧
      f.width = 200 ∧ f.height = 200 ∧
      f.pix 100 100 = yellow ∧ f.pix 0 0 = blue ∧ f.pix 199 199 = blue :=
  deterministic_runs none none none none rfl rfl

/-- C9: the bounding box (50,50)–(150,150) is fully contained in the canvas
(0 ≤ 50 and 150 ≤ 200), and every pixel the draw step actually changes has
coordinates within [0,200) × [0,200): no out-of-bounds pixel is touched. -/
theorem draw_in_bounds (x y : Int)
    (h : finalImg.pix x y ≠ initialImg.pix x y) :
    (0 : Int) ≤ 50 ∧ (150 : Int) ≤ 200 ∧
    0 ≤ x ∧ x < 200 ∧ 0 ≤ y ∧ y < 200 := by
  have hin : insideEllipse 50 50 150 150 x y := by
    by_contra hni
    exact h ((draw_ellipse_frame x y).2 hni)
  rcases insideEllipse_mem_box hin with ⟨h1, h2, h3, h4⟩
  exact ⟨by norm_num, by norm_num, by omega, by omega, by omega, by omega⟩

/-- Concrete instance: the center pixel is changed by the draw, and its
coordinates are within the canvas. -/
theorem draw_in_bounds_witness :
    (0 : Int) ≤ 50 ∧ (150 : Int) ≤ 200 ∧
    (0 : Int) ≤ 100 ∧ (100 : Int) < 200 ∧ (0 : Int) ≤ 100 ∧ (100 : Int) < 200 :=
  draw_in_bounds 100 100 (by decide)

/-- C10: the ellipse is rasterized with hard edges: every pixel of the final
image is exactly one of the two colors (59, 130, 246) and (234, 179, 8), with
no blended intermediate color anywhere. -/
theorem two_color_partition (x y : Int) :
    finalImg.pix x y = ⟨59, 130, 246⟩ ∨ finalImg.pix x y = ⟨234, 179, 8⟩ := by
  by_cases h : insideEllipse 50 50 150 150 x y <;>
    simp [finalImg, drawEllipse, initialImg, imageNew, h, blue, yellow]

/-- Concrete instances of the two-color partition at a corner and the center. -/
theorem two_color_partition_witness :
    (finalImg.pix 0 0 = ⟨59, 130, 246⟩ ∨ finalImg.pix 0 0 = ⟨234, 179, 8⟩) ∧
    (finalImg.pix 100 100 = ⟨59, 130, 246⟩ ∨
      finalImg.pix 100 100 = ⟨234, 179, 8⟩) :=
  ⟨two_color_partition 0 0, two_color_partition 100 100⟩

end CreateTestLogo
